import Mathlib

/-!
Shallow embedding of the IIIF request-parameter interpreter of
`titiler.image` (files `titiler/image/factory.py` and
`titiler/image/utils.py`).

Python strings are modelled as `List Char`; Python `float` arithmetic is
modelled by exact rationals (`ℚ`); Python `int` by `ℤ`/`ℕ`.  Python's
`str.replace`, `str.split`, `str.startswith`, `str.endswith`, `int(...)`
and `float(...)` are modelled below.  An HTTP 400 `HTTPException` is
`PyErr.http 400`; an uncaught Python exception escaping the handler
(`ValueError` from `int`/`float`/tuple unpacking, `IndexError`) is
`PyErr.uncaught`.
-/

-- Batteries marks the arithmetic on `Rat` irreducible; re-expose it so that
-- concrete rational computations in witnesses reduce by `decide`.
set_option allowUnsafeReducibility true in
attribute [semireducible] Rat.add Rat.mul Rat.inv Rat.sub Rat.ofScientific

/-- Python strings, as lists of characters. -/
abbrev Str := List Char

/-- Python `s.split(sep)` for a one-character separator:
`"".split(",") = [""]`, `",".split(",") = ["", ""]`. -/
def pySplit (sep : Char) : Str → List Str
  | [] => [[]]
  | c :: rest =>
    match pySplit sep rest with
    | [] => [[]]
    | grp :: out => if c = sep then [] :: grp :: out else (c :: grp) :: out

/-- Fuel-driven worker for `pyReplace` (structural recursion on the fuel, so
that concrete evaluations reduce in the kernel). -/
def pyReplaceAux (pat rep : Str) : ℕ → Str → Str
  | 0, s => s
  | _, [] => []
  | fuel + 1, c :: s =>
    if pat ≠ [] ∧ pat.isPrefixOf (c :: s) then
      rep ++ pyReplaceAux pat rep fuel (s.drop (pat.length - 1))
    else
      c :: pyReplaceAux pat rep fuel s

/-- Python `s.replace(pat, rep)` for a nonempty `pat`: replaces every
non-overlapping occurrence, scanning left to right.  (Python's behaviour
for an empty pattern is not modelled; the program only replaces nonempty
patterns.)  Each step consumes at least one character, so `s.length` fuel
always suffices. -/
def pyReplace (pat rep s : Str) : Str := pyReplaceAux pat rep s.length s

/-- Python `s.startswith(p)`. -/
def pyStartsWith (p s : Str) : Bool := p.isPrefixOf s

/-- Python `s.endswith(p)`. -/
def pyEndsWith (p s : Str) : Bool := p.isSuffixOf s

/-- The numeric value of a decimal digit character. -/
def digitVal (c : Char) : ℕ := c.toNat - ('0').toNat

/-- Split a string into its longest prefix of decimal digits (as digit
values) and the rest. -/
def takeDigits : Str → List ℕ × Str
  | [] => ([], [])
  | c :: rest =>
    if c.isDigit then
      let (ds, rem) := takeDigits rest
      (digitVal c :: ds, rem)
    else
      ([], c :: rest)

/-- The natural number denoted by a list of digit values. -/
def natVal (ds : List ℕ) : ℕ := ds.foldl (fun a d => 10 * a + d) 0

/-- The fraction denoted by a list of digit values read after a decimal
point. -/
def fracVal (ds : List ℕ) : ℚ := (natVal ds : ℚ) / (10 : ℚ) ^ ds.length

/-- Unsigned part of Python `float(s)` for finite decimal literals:
`digits`, `digits.`, `digits.digits` or `.digits`.  (Exponents,
`inf`/`nan`, underscores and surrounding whitespace are not modelled; no
input handled by the program's parsers uses them.) -/
def parseUFloat (s : Str) : Option ℚ :=
  if s.head? = some '.' then
    let (ds, rem) := takeDigits s.tail
    if ds ≠ [] ∧ rem = [] then some (fracVal ds) else none
  else
    let (ds, rem) := takeDigits s
    if ds = [] then none
    else if rem = [] then some (natVal ds)
    else if rem.head? = some '.' then
      let (fs, rem2) := takeDigits rem.tail
      if rem2 = [] then some ((natVal ds : ℚ) + fracVal fs) else none
    else none

/-- Python `float(s)` on finite decimal literals, `none` = `ValueError`. -/
def pyParseFloat (s : Str) : Option ℚ :=
  if s.head? = some '+' then parseUFloat s.tail
  else if s.head? = some '-' then (parseUFloat s.tail).map (fun q => -q)
  else parseUFloat s

/-- Unsigned part of Python `int(s)`: a nonempty all-digit string. -/
def parseDigitsNat (s : Str) : Option ℕ :=
  let (ds, rem) := takeDigits s
  if ds = [] ∨ rem ≠ [] then none else some (natVal ds)

/-- Python `int(s)`, `none` = `ValueError`.  (Underscores and surrounding
whitespace are not modelled.) -/
def pyParseInt (s : Str) : Option ℤ :=
  if s.head? = some '+' then (parseDigitsNat s.tail).map Int.ofNat
  else if s.head? = some '-' then (parseDigitsNat s.tail).map (fun n => -(n : ℤ))
  else (parseDigitsNat s).map Int.ofNat

/-- Floor of a rational, computably (`⌊q⌋`: the `/` on `ℤ` is Euclidean
division, which floors for the positive denominator). -/
def qfloor (q : ℚ) : ℤ := q.num / (q.den : ℤ)

/-- Ceiling of a rational, computably. -/
def qceil (q : ℚ) : ℤ := -qfloor (-q)

/-- Python `int(x)` on a number: truncation toward zero. -/
def pyint (q : ℚ) : ℤ := if q < 0 then qceil q else qfloor q

/-- Python 3 `round(x)` on a number: round half to even. -/
def pyround (q : ℚ) : ℤ :=
  let f := qfloor q
  let r := q - (f : ℚ)
  if r < 1/2 then f
  else if r > 1/2 then f + 1
  else if f % 2 = 0 then f else f + 1

/-- Python `x % m` on numbers (sign follows the divisor). -/
def pymod (q m : ℚ) : ℚ := q - m * (qfloor (q / m) : ℚ)

/-- Python `list(map(f, xs))` where `f` may raise (`none`): evaluated left
to right, the first failure raises. -/
def mapMOpt (f : Str → Option α) : List Str → Option (List α)
  | [] => some []
  | s :: rest =>
    match f s with
    | none => none
    | some v =>
      match mapMOpt f rest with
      | none => none
      | some vs => some (v :: vs)

/-- A crop rectangle in source pixel space
(`rasterio.windows.Window`; the program constructs it with float fields). -/
structure Window where
  col_off : ℚ
  row_off : ℚ
  width : ℚ
  height : ℚ
deriving DecidableEq, Repr

/-- Server-wide IIIF size limits (`IIIFSettings.max_width/max_height/max_area`). -/
structure SizeLimits where
  max_width : Option ℕ
  max_height : Option ℕ
  max_area : Option ℕ
deriving DecidableEq, Repr

/-- How a request step ends when it does not produce a value: an
`HTTPException(status)` raised by the handler, or an uncaught Python
exception (`ValueError` from `int`/`float`/tuple unpacking, `IndexError`)
escaping it. -/
inductive PyErr where
  | http (status : ℕ)
  | uncaught
deriving DecidableEq, Repr

/-- The parsed rotation segment: degrees plus the mirror flag. -/
structure RotationSpec where
  degrees : ℚ
  mirrored : Bool
deriving DecidableEq, Repr

/-- A pixel buffer with validity mask (`rio_tiler.models.ImageData`):
`data` is band-major (`bands × rows × cols`), `mask` is per-pixel with
`true` = masked/invalid (the `numpy.ma.MaskedArray` convention). -/
structure Canvas where
  data : List (List (List ℕ))
  mask : List (List Bool)
deriving DecidableEq, Repr

/-- `ImageData.count`: the number of bands. -/
def Canvas.count (c : Canvas) : ℕ := c.data.length

/-- Python truthiness of an `Optional[int]`: `None` and `0` are falsy. -/
def truthy : Option ℕ → Bool
  | some n => n ≠ 0
  | none => false

/-- The value held by an `Optional[int]` (only read under `truthy`). -/
def optVal : Option ℕ → ℕ
  | some n => n
  | none => 0

/-- `titiler/image/utils.py::_get_sizes`: output width/height constrained by
the environment's `max_width`/`max_height`/`max_area`.  Arithmetic is exact
(`ℚ`) where the source uses Python floats; `int(...)` is `pyint`. -/
def _get_sizes (w h : ℚ) (max_width max_height max_area : Option ℕ) : ℚ × ℚ :=
  if truthy max_area ∧ (optVal max_area : ℚ) < w * h then
    let area_ratio : ℚ := (optVal max_area : ℚ) / (w * h)
    (((pyint (w * area_ratio) : ℤ) : ℚ), ((pyint (h * area_ratio) : ℤ) : ℚ))
  else if truthy max_width then
    let mw : ℕ := optVal max_width
    let mh : ℕ := if truthy max_height then optVal max_height else mw
    let p1 : ℚ × ℚ :=
      if w > (mw : ℚ) then ((mw : ℚ), ((pyint (h * (mw : ℚ) / w) : ℤ) : ℚ)) else (w, h)
    if p1.2 > (mh : ℚ) then (((pyint (w * (mh : ℚ) / h) : ℤ) : ℚ), (mh : ℚ)) else p1
  else (w, h)

/-- ITU-R 601-2 luma of one pixel as computed by `image_to_grayscale`:
`r*299/1000 + g*587/1000 + b*114/1000` then `astype("uint8")` (truncation,
wrapping modulo 256). -/
def lumaPix (r g b : ℕ) : ℕ :=
  (pyint ((r : ℚ) * 299 / 1000 + (g : ℚ) * 587 / 1000 + (b : ℚ) * 114 / 1000)).toNat % 256

/-- Elementwise combination of three rows. -/
def zipPix (f : ℕ → ℕ → ℕ → ℕ) : List ℕ → List ℕ → List ℕ → List ℕ
  | x :: xs, y :: ys, z :: zs => f x y z :: zipPix f xs ys zs
  | _, _, _ => []

/-- Elementwise combination of three bands (rows × cols). -/
def zipRows (f : ℕ → ℕ → ℕ → ℕ) : List (List ℕ) → List (List ℕ) → List (List ℕ) → List (List ℕ)
  | x :: xs, y :: ys, z :: zs => zipPix f x y z :: zipRows f xs ys zs
  | _, _, _ => []

/-- `titiler/image/utils.py::image_to_grayscale`: a 1-band canvas is
returned unchanged; a 3-band canvas is reduced to one luma band with the
per-pixel mask carried over (`data.mask = ~img.mask.astype("bool")`
restores the original invalid-pixel flags); any other band count raises
`HTTPException(400)`. -/
def image_to_grayscale (img : Canvas) : Except PyErr Canvas :=
  if img.count = 1 then .ok img
  else if img.count = 3 then
    .ok ⟨[zipRows lumaPix (img.data.getD 0 []) (img.data.getD 1 []) (img.data.getD 2 [])],
         img.mask⟩
  else .error (.http 400)

/-- `titiler/image/utils.py::image_to_bitonal`: grayscale first, then
`numpy.where(arr > 127, 255, 0)`.  The thresholded plain array is wrapped
into a new `ImageData` without a mask argument, so the result's mask is
all-valid (`numpy.ma.asarray` of a plain array has an all-`False` mask). -/
def image_to_bitonal (img : Canvas) : Except PyErr Canvas :=
  match image_to_grayscale img with
  | .error e => .error e
  | .ok g =>
    .ok ⟨g.data.map (fun band => band.map (fun row =>
           row.map (fun v => if v > 127 then 255 else 0))),
         g.mask.map (fun row => row.map (fun _ => false))⟩

/-- `cos`/`sin` of an angle in degrees as computed by `affine`'s
`cos_sin_deg` (used by `Affine.rotation`): right angles are special-cased
to exact values; any other angle goes through floating-point trigonometry,
which this embedding leaves unmodelled (`none`). -/
def cos_sin_deg (angle : ℚ) : Option (ℚ × ℚ) :=
  let deg := pymod angle 360
  if deg = 0 then some (1, 0)
  else if deg = 90 then some (0, 1)
  else if deg = 180 then some (-1, 0)
  else if deg = 270 then some (0, -1)
  else none

/-- `max` of a list of rationals (Python `max(xx)` on a nonempty list). -/
def qmax : List ℚ → ℚ
  | [] => 0
  | x :: xs => xs.foldl max x

/-- `min` of a list of rationals (Python `min(xx)` on a nonempty list). -/
def qmin : List ℚ → ℚ
  | [] => 0
  | x :: xs => xs.foldl min x

/-- The output `(width, height)` of `titiler/image/utils.py::rotate` on a
`width × height` canvas.  Only the canvas dimensions are modelled: the
resampling of data and mask is delegated to `rasterio.warp.reproject`
(an external collaborator).  Mirroring flips the array along its column
axis and never changes the shape.  The rotation affine is
`Affine.rotation(-angle, (width // 2, height // 2))`; with `expand` the new
shape is the ceil/floor bounding box of the four rotated corners.  `none`
when the angle is not a right angle (floating-point trigonometry, not
modelled). -/
def rotateDims (width height : ℕ) (angle : ℚ) (expand : Bool) (mirrored : Bool) :
    Option (ℤ × ℤ) :=
  let _ := mirrored
  if angle = 0 then some ((width : ℤ), (height : ℤ))
  else
    match cos_sin_deg (-angle) with
    | none => none
    | some (ca, sa) =>
      if expand then
        let px : ℚ := ((width / 2 : ℕ) : ℚ)
        let py : ℚ := ((height / 2 : ℕ) : ℚ)
        let c := px - px * ca + py * sa
        let f := py - px * sa - py * ca
        let corners : List (ℚ × ℚ) :=
          [(0, 0), ((width : ℚ), 0), ((width : ℚ), (height : ℚ)), (0, (height : ℚ))]
        let xx := corners.map (fun p => ca * p.1 - sa * p.2 + c)
        let yy := corners.map (fun p => sa * p.1 + ca * p.2 + f)
        some (qceil (qmax xx) - qfloor (qmin xx), qceil (qmax yy) - qfloor (qmin yy))
      else some ((width : ℤ), (height : ℤ))

deriving instance DecidableEq for Except

/-- The post-check applied to every region branch (`factory.py` lines
587-595): reject a window with non-positive width/height or an offset past
the far edge. -/
def regionPostCheck (dst_width dst_height : ℕ) (wdw : Window) : Except PyErr Window :=
  if wdw.width ≤ 0 ∨ wdw.height ≤ 0 ∨ wdw.col_off > (dst_width : ℚ) ∨
      wdw.row_off > (dst_height : ℚ) then
    .error (.http 400)
  else .ok wdw

/-- `factory.py::iiif_image`, the Region section (lines 523-595): the
`region` path segment against the source dimensions.  Errors:
`PyErr.http 400` for the explicit `Invalid Region parameter` raises,
`PyErr.uncaught` for a `float(...)`/unpacking failure the handler does not
catch. -/
def parse_region (region : Str) (dst_width dst_height : ℕ) : Except PyErr Window :=
  if region = ("full").data then
    regionPostCheck dst_width dst_height ⟨0, 0, (dst_width : ℚ), (dst_height : ℚ)⟩
  else if region = ("square").data then
    let min_size : ℕ := min dst_width dst_height
    let x_off : ℕ := (dst_width - min_size) / 2
    let y_off : ℕ := (dst_height - min_size) / 2
    regionPostCheck dst_width dst_height
      ⟨(x_off : ℚ), (y_off : ℚ), (min_size : ℚ), (min_size : ℚ)⟩
  else if pyStartsWith (("pct:").data) region then
    match mapMOpt pyParseFloat (pySplit ',' (pyReplace (("pct:").data) [] region)) with
    | none => .error .uncaught
    | some vals =>
      match vals with
      | [x, y, w, h] =>
        if max (max x y) (max w h) > 100 ∨ min (min x y) (min w h) < 0 then
          .error (.http 400)
        else
          let xr : ℚ := ((pyround ((dst_width : ℚ) / 100 * x) : ℤ) : ℚ)
          let yr : ℚ := ((pyround ((dst_height : ℚ) / 100 * y) : ℤ) : ℚ)
          let wr : ℚ := ((pyround ((dst_width : ℚ) / 100 * w) : ℤ) : ℚ)
          let hr : ℚ := ((pyround ((dst_height : ℚ) / 100 * h) : ℤ) : ℚ)
          let wr := if wr + xr > (dst_width : ℚ) then (dst_width : ℚ) - xr else wr
          let hr := if hr + yr > (dst_height : ℚ) then (dst_height : ℚ) - yr else hr
          regionPostCheck dst_width dst_height ⟨xr, yr, wr, hr⟩
      | _ => .error .uncaught
  else if (pySplit ',' region).length = 4 then
    match mapMOpt pyParseFloat (pySplit ',' region) with
    | none => .error .uncaught
    | some vals =>
      match vals with
      | [x, y, w, h] =>
        let w := if w + x > (dst_width : ℚ) then (dst_width : ℚ) - x else w
        let h := if h + y > (dst_height : ℚ) then (dst_height : ℚ) - y else h
        regionPostCheck dst_width dst_height ⟨x, y, w, h⟩
      | _ => .error .uncaught
  else .error (.http 400)

/-- `factory.py::iiif_image`, the Rotation section (lines 776-791):
`float(rotation.replace("!", ""))` with the `[0, 360]` range check, both
failures caught and re-raised as `HTTPException(400)`; `mirrored` is
`rotation.startswith("!")`. -/
def parse_rotation (rotation : Str) : Except PyErr RotationSpec :=
  match pyParseFloat (pyReplace (("!").data) [] rotation) with
  | none => .error (.http 400)
  | some rot =>
    if rot < 0 ∨ rot > 360 then .error (.http 400)
    else .ok ⟨rot, pyStartsWith (("!").data) rotation⟩

/-- `factory.py::iiif_image`, the Size section (lines 597-765): the `size`
path segment against the region window and the server size limits,
including the final `_get_sizes` clamp and the `<= 1` rejection.  The
result is the `(out_width, out_height)` passed to the pixel read. -/
def parse_size (size : Str) (window : Window) (limits : SizeLimits) :
    Except PyErr (ℚ × ℚ) :=
  let out_width := window.width
  let out_height := window.height
  let ar : ℚ := out_width / out_height
  let step : Except PyErr (ℚ × ℚ) :=
    if size = ("max").data then .ok (out_width, out_height)
    else if size = ("^max").data then
      if ar > 1 then
        let ow := if truthy limits.max_width then
                    max out_width ((optVal limits.max_width : ℕ) : ℚ)
                  else out_width
        .ok (ow, ((qceil (ow / ar) : ℤ) : ℚ))
      else
        let oh := if truthy limits.max_height then
                    max out_height ((optVal limits.max_height : ℕ) : ℚ)
                  else out_height
        .ok (((qceil (ar * oh) : ℤ) : ℚ), oh)
    else if pyStartsWith (("pct:").data) size then
      match pyParseFloat (pyReplace (("pct:").data) [] size) with
      | none => .error .uncaught
      | some pct =>
        if pct > 100 ∨ pct ≤ 0 then .error (.http 400)
        else .ok (((pyround (out_width / 100 * pct) : ℤ) : ℚ),
                  ((pyround (out_height / 100 * pct) : ℤ) : ℚ))
    else if pyStartsWith (("^pct:").data) size then
      match pyParseFloat (pyReplace (("^pct:").data) [] size) with
      | none => .error .uncaught
      | some pct =>
        if pct ≤ 0 then .error (.http 400)
        else .ok (((pyround (out_width / 100 * pct) : ℤ) : ℚ),
                  ((pyround (out_height / 100 * pct) : ℤ) : ℚ))
    else if ',' ∈ size then
      let sizes := pySplit ',' size
      if pyStartsWith (("^!").data) size then
        -- NOTE: the source strips the pattern "!^", which never matches the
        -- "^!" prefix actually present, so `int` receives the unstripped
        -- first component.
        match mapMOpt pyParseInt (pySplit ',' (pyReplace (("!^").data) [] size)) with
        | none => .error .uncaught
        | some l =>
          match l with
          | [mw, mh] =>
            if ar > 1 then .ok ((mw : ℚ), ((qceil ((mw : ℚ) / ar) : ℤ) : ℚ))
            else .ok (((qceil (ar * (mh : ℚ)) : ℤ) : ℚ), (mh : ℚ))
          | _ => .error .uncaught
      else if pyStartsWith (("!").data) size then
        match mapMOpt pyParseInt (pySplit ',' (pyReplace (("!").data) [] size)) with
        | none => .error .uncaught
        | some l =>
          match l with
          | [mw, mh] =>
            let p : ℚ × ℚ :=
              if ar > 1 then ((mw : ℚ), ((qceil ((mw : ℚ) / ar) : ℤ) : ℚ))
              else (((qceil (ar * (mh : ℚ)) : ℤ) : ℚ), (mh : ℚ))
            if p.1 > window.width ∨ p.2 > window.height then .error (.http 400)
            else .ok p
          | _ => .error .uncaught
      else if pyStartsWith (("^").data) size then
        let sizes2 := pySplit ',' (pyReplace (("^").data) [] size)
        if pyEndsWith ((",").data) size then
          match pyParseInt (sizes2.getD 0 []) with
          | none => .error .uncaught
          | some wv => .ok ((wv : ℚ), ((qceil ((wv : ℚ) / ar) : ℤ) : ℚ))
        else if pyStartsWith ((",").data) size then
          -- dead in practice: `size` starts with "^" here; kept as in source
          match pyParseInt (sizes2.getD 1 []) with
          | none => .error .uncaught
          | some hv => .ok (((qceil (ar * (hv : ℚ)) : ℤ) : ℚ), (hv : ℚ))
        else if sizes2.getD 0 [] ≠ [] ∧ sizes2.getD 1 [] ≠ [] then
          match mapMOpt pyParseInt sizes2 with
          | none => .error .uncaught
          | some l =>
            match l with
            | [wv, hv] => .ok ((wv : ℚ), (hv : ℚ))
            | _ => .error .uncaught
        else
          -- no sub-case assigns: the window dimensions fall through unchanged
          .ok (out_width, out_height)
      else if pyEndsWith ((",").data) size then
        match pyParseInt (sizes.getD 0 []) with
        | none => .error .uncaught
        | some wv =>
          if (wv : ℚ) > window.width then .error (.http 400)
          else .ok ((wv : ℚ), ((qceil ((wv : ℚ) / ar) : ℤ) : ℚ))
      else if pyStartsWith ((",").data) size then
        match pyParseInt (sizes.getD 1 []) with
        | none => .error .uncaught
        | some hv =>
          if (hv : ℚ) > window.height then .error (.http 400)
          else .ok (((qceil (ar * (hv : ℚ)) : ℤ) : ℚ), (hv : ℚ))
      else if sizes.getD 0 [] ≠ [] ∧ sizes.getD 1 [] ≠ [] then
        match mapMOpt pyParseInt sizes with
        | none => .error .uncaught
        | some l =>
          match l with
          | [wv, hv] =>
            if (wv : ℚ) > window.width ∨ (hv : ℚ) > window.height then
              .error (.http 400)
            else .ok ((wv : ℚ), (hv : ℚ))
          | _ => .error .uncaught
      else .error (.http 400)
    else .error (.http 400)
  match step with
  | .error e => .error e
  | .ok (ow, oh) =>
    let p := _get_sizes ow oh limits.max_width limits.max_height limits.max_area
    if p.1 ≤ 1 ∨ p.2 ≤ 1 then .error (.http 400) else .ok p

theorem qfloor_eq_floor (q : ℚ) : qfloor q = ⌊q⌋ := Rat.floor_def.symm

theorem qceil_eq_ceil (q : ℚ) : qceil q = ⌈q⌉ := by
  rw [qceil, qfloor_eq_floor, Int.floor_neg, neg_neg]

theorem pyint_eq_floor (q : ℚ) (h : 0 ≤ q) : pyint q = ⌊q⌋ := by
  rw [pyint, if_neg (not_lt.mpr h), qfloor_eq_floor]

theorem pyint_le (q : ℚ) (h : 0 ≤ q) : (pyint q : ℚ) ≤ q := by
  rw [pyint_eq_floor q h]
  exact Int.floor_le q

/-- Concrete checks of the numeric and string primitives against Python's
behaviour (`int(-1.5) = -1`, `round(2.5) = 2`, `round(3.5) = 4`,
`-90 % 360 = 270`, `",".split(",") = ["", ""]`, `"^!1500,800".replace("!^", "")`
changes nothing, `float("9!0")` raises, `int("^!1500")` raises). -/
theorem primitive_eval_checks :
    qfloor (-3/2 : ℚ) = -2 ∧ qceil (153/10 : ℚ) = 16 ∧ pyint (-3/2 : ℚ) = -1 ∧
    pyround (5/2 : ℚ) = 2 ∧ pyround (7/2 : ℚ) = 4 ∧ pymod (-90 : ℚ) 360 = 270 ∧
    pySplit ',' ("a,b".data) = ["a".data, "b".data] ∧
    pySplit ',' (",".data) = [[], []] ∧
    pyReplace ("!^".data) [] ("^!1500,800".data) = "^!1500,800".data ∧
    pyReplace ("!".data) [] ("9!0".data) = "90".data ∧
    pyParseFloat ("90.5".data) = some (181/2) ∧
    pyParseFloat ("9!0".data) = none ∧
    pyParseFloat ("-10".data) = some (-10) ∧
    pyParseInt ("^!1500".data) = none ∧
    pyParseInt ("800".data) = some 800 := by decide

theorem pySplit_ne_nil (sep : Char) (s : Str) : pySplit sep s ≠ [] := by
  cases s with
  | nil => simp [pySplit]
  | cons c rest =>
    simp only [pySplit]
    cases h : pySplit sep rest with
    | nil => simp
    | cons g o => by_cases hc : c = sep <;> simp [hc]

theorem pySplit_cons_append (a rest : Str) (ha : ',' ∉ a) :
    pySplit ',' (a ++ ',' :: rest) = a :: pySplit ',' rest := by
  induction a with
  | nil =>
    simp only [List.nil_append, pySplit]
    cases h : pySplit ',' rest with
    | nil => exact absurd h (pySplit_ne_nil ',' rest)
    | cons g o => simp
  | cons c cs ih =>
    have hc : c ≠ ',' := fun he => ha (he ▸ List.mem_cons_self c cs)
    have hcs : ',' ∉ cs := fun hm => ha (List.mem_cons_of_mem c hm)
    simp only [List.cons_append, pySplit, List.append_eq]
    rw [ih hcs]
    simp [hc]

theorem pySplit_eq_self (a : Str) (ha : ',' ∉ a) : pySplit ',' a = [a] := by
  induction a with
  | nil => rfl
  | cons c cs ih =>
    have hc : c ≠ ',' := fun he => ha (he ▸ List.mem_cons_self c cs)
    have hcs : ',' ∉ cs := fun hm => ha (List.mem_cons_of_mem c hm)
    simp only [pySplit, ih hcs, if_neg hc]

theorem pyParseFloat_head (s : Str) (x : ℚ) (h : pyParseFloat s = some x) :
    ∃ c t, s = c :: t ∧ (c = '+' ∨ c = '-' ∨ c = '.' ∨ c.isDigit) := by
  cases s with
  | nil => simp [pyParseFloat, parseUFloat, takeDigits] at h
  | cons c t =>
    refine ⟨c, t, rfl, ?_⟩
    by_cases h1 : c = '+'
    · exact Or.inl h1
    by_cases h2 : c = '-'
    · exact Or.inr (Or.inl h2)
    by_cases h3 : c = '.'
    · exact Or.inr (Or.inr (Or.inl h3))
    refine Or.inr (Or.inr (Or.inr ?_))
    by_contra hd
    have htd : takeDigits (c :: t) = ([], c :: t) := by
      simp only [takeDigits, if_neg hd]
    simp [pyParseFloat, parseUFloat, htd, h1, h2, h3] at h

theorem pyParseFloat_head_ne (s : Str) (x : ℚ) (h : pyParseFloat s = some x) (a : Char)
    (ha1 : a ≠ '+') (ha2 : a ≠ '-') (ha3 : a ≠ '.') (ha4 : ¬ a.isDigit) :
    ∃ c t, s = c :: t ∧ c ≠ a := by
  obtain ⟨c, t, hs, hc⟩ := pyParseFloat_head s x h
  refine ⟨c, t, hs, ?_⟩
  rcases hc with h' | h' | h' | h' <;> intro he <;> subst he
  · exact ha1 h'
  · exact ha2 h'
  · exact ha3 h'
  · exact ha4 h'

theorem not_startsWith_pct_of_parse (sx : Str) (x : ℚ) (rest : Str)
    (h : pyParseFloat sx = some x) :
    pyStartsWith (("pct:").data) (sx ++ rest) = false := by
  obtain ⟨c, t, hs, hc⟩ := pyParseFloat_head_ne sx x h 'p'
    (by decide) (by decide) (by decide) (by decide)
  subst hs
  have hlit : ("pct:").data = 'p' :: ("ct:").data := rfl
  rw [hlit]
  simp only [pyStartsWith, List.cons_append, List.isPrefixOf, Bool.and_eq_false_imp]
  simp [beq_eq_false_iff_ne, Ne.symm hc]

/-- C5: a plain `"x,y,w,h"` region whose four components parse as numbers,
with `w > 0`, `h > 0`, `x ≥ 0`, `y ≥ 0`, `x + w ≤ source_width` and
`y + h ≤ source_height`, succeeds and yields exactly the window
`{col_off = x, row_off = y, width = w, height = h}` — no clipping. -/
theorem parse_region_inside_exact
    (sx sy sw sh : Str) (x y w h : ℚ) (W H : ℕ)
    (hpx : pyParseFloat sx = some x) (hpy : pyParseFloat sy = some y)
    (hpw : pyParseFloat sw = some w) (hph : pyParseFloat sh = some h)
    (hcx : ',' ∉ sx) (hcy : ',' ∉ sy) (hcw : ',' ∉ sw) (hch : ',' ∉ sh)
    (hx : 0 ≤ x) (hy : 0 ≤ y) (hw : 0 < w) (hh : 0 < h)
    (hxw : x + w ≤ (W : ℚ)) (hyh : y + h ≤ (H : ℚ)) :
    parse_region (sx ++ ',' :: (sy ++ ',' :: (sw ++ ',' :: sh))) W H =
      Except.ok ⟨x, y, w, h⟩ := by
  have hmem : (',' : Char) ∈ sx ++ ',' :: (sy ++ ',' :: (sw ++ ',' :: sh)) :=
    List.mem_append.mpr (Or.inr (List.mem_cons_self _ _))
  have hfull : sx ++ ',' :: (sy ++ ',' :: (sw ++ ',' :: sh)) ≠ ("full").data := by
    intro he
    rw [he] at hmem
    exact absurd hmem (by decide)
  have hsq : sx ++ ',' :: (sy ++ ',' :: (sw ++ ',' :: sh)) ≠ ("square").data := by
    intro he
    rw [he] at hmem
    exact absurd hmem (by decide)
  have hpct := not_startsWith_pct_of_parse sx x (',' :: (sy ++ ',' :: (sw ++ ',' :: sh))) hpx
  have hsplit : pySplit ',' (sx ++ ',' :: (sy ++ ',' :: (sw ++ ',' :: sh))) =
      [sx, sy, sw, sh] := by
    rw [pySplit_cons_append _ _ hcx, pySplit_cons_append _ _ hcy,
        pySplit_cons_append _ _ hcw, pySplit_eq_self _ hch]
  have hmapM : mapMOpt pyParseFloat [sx, sy, sw, sh] = some [x, y, w, h] := by
    simp [mapMOpt, hpx, hpy, hpw, hph]
  have hclipw : ¬ (w + x > (W : ℚ)) := by
    push_neg
    linarith
  have hcliph : ¬ (h + y > (H : ℚ)) := by
    push_neg
    linarith
  have hpost : ¬ (w ≤ 0 ∨ h ≤ 0 ∨ x > (W : ℚ) ∨ y > (H : ℚ)) := by
    push_neg
    exact ⟨hw, hh, by linarith, by linarith⟩
  unfold parse_region regionPostCheck
  rw [if_neg hfull, if_neg hsq, hpct]
  simp only [Bool.false_eq_true, if_false, hsplit, hmapM, List.length_cons,
    List.length_nil, Nat.reduceAdd]
  simp only [if_true, if_neg hclipw, if_neg hcliph]
  simp [hpost]

/-- C5 witness: region `"10,20,100,50"` on a 1000 × 695 source. -/
theorem parse_region_inside_exact_witness :
    parse_region (("10").data ++ ',' :: (("20").data ++ ',' :: (("100").data ++ ',' ::
      ("50").data))) 1000 695 = Except.ok ⟨10, 20, 100, 50⟩ :=
  parse_region_inside_exact _ _ _ _ 10 20 100 50 1000 695 (by decide) (by decide)
    (by decide) (by decide) (by decide) (by decide) (by decide) (by decide) (by decide)
    (by decide) (by decide) (by decide) (by decide) (by decide)

/-- C6: a plain `"x,y,w,h"` region with `x ≥ 0`, `y ≥ 0`, `x < source_width`,
`y < source_height` and positive `w`, `h` that extends past an edge succeeds
and is clipped at the far edge: `width = source_width - x` when `w + x`
exceeds the source width, `height = source_height - y` when `h + y` exceeds
the source height. -/
theorem parse_region_clips_far_edge
    (sx sy sw sh : Str) (x y w h : ℚ) (W H : ℕ)
    (hpx : pyParseFloat sx = some x) (hpy : pyParseFloat sy = some y)
    (hpw : pyParseFloat sw = some w) (hph : pyParseFloat sh = some h)
    (hcx : ',' ∉ sx) (hcy : ',' ∉ sy) (hcw : ',' ∉ sw) (hch : ',' ∉ sh)
    (hx : 0 ≤ x) (hy : 0 ≤ y) (hxW : x < (W : ℚ)) (hyH : y < (H : ℚ))
    (hw : 0 < w) (hh : 0 < h)
    (hover : w + x > (W : ℚ) ∨ h + y > (H : ℚ)) :
    parse_region (sx ++ ',' :: (sy ++ ',' :: (sw ++ ',' :: sh))) W H =
      Except.ok ⟨x, y, if w + x > (W : ℚ) then (W : ℚ) - x else w,
                 if h + y > (H : ℚ) then (H : ℚ) - y else h⟩ := by
  have hmem : (',' : Char) ∈ sx ++ ',' :: (sy ++ ',' :: (sw ++ ',' :: sh)) :=
    List.mem_append.mpr (Or.inr (List.mem_cons_self _ _))
  have hfull : sx ++ ',' :: (sy ++ ',' :: (sw ++ ',' :: sh)) ≠ ("full").data := by
    intro he
    rw [he] at hmem
    exact absurd hmem (by decide)
  have hsq : sx ++ ',' :: (sy ++ ',' :: (sw ++ ',' :: sh)) ≠ ("square").data := by
    intro he
    rw [he] at hmem
    exact absurd hmem (by decide)
  have hpct := not_startsWith_pct_of_parse sx x (',' :: (sy ++ ',' :: (sw ++ ',' :: sh))) hpx
  have hsplit : pySplit ',' (sx ++ ',' :: (sy ++ ',' :: (sw ++ ',' :: sh))) =
      [sx, sy, sw, sh] := by
    rw [pySplit_cons_append _ _ hcx, pySplit_cons_append _ _ hcy,
        pySplit_cons_append _ _ hcw, pySplit_eq_self _ hch]
  have hmapM : mapMOpt pyParseFloat [sx, sy, sw, sh] = some [x, y, w, h] := by
    simp [mapMOpt, hpx, hpy, hpw, hph]
  have hw' : 0 < (if w + x > (W : ℚ) then (W : ℚ) - x else w) := by
    split
    · linarith
    · exact hw
  have hh' : 0 < (if h + y > (H : ℚ) then (H : ℚ) - y else h) := by
    split
    · linarith
    · exact hh
  have hpost : ¬ ((if w + x > (W : ℚ) then (W : ℚ) - x else w) ≤ 0 ∨
      (if h + y > (H : ℚ) then (H : ℚ) - y else h) ≤ 0 ∨
      x > (W : ℚ) ∨ y > (H : ℚ)) := by
    push_neg
    exact ⟨hw', hh', le_of_lt hxW, le_of_lt hyH⟩
  unfold parse_region regionPostCheck
  rw [if_neg hfull, if_neg hsq, hpct]
  simp only [Bool.false_eq_true, if_false, hsplit, hmapM, List.length_cons,
    List.length_nil, Nat.reduceAdd, if_true]
  simp [hpost]

/-- C6 witness: region `"0,0,1005,700"` on a 1000 × 695 source yields the
clipped full-image window `{0, 0, 1000, 695}`. -/
theorem parse_region_clips_far_edge_witness :
    parse_region (("0").data ++ ',' :: (("0").data ++ ',' :: (("1005").data ++ ',' ::
      ("700").data))) 1000 695 = Except.ok ⟨0, 0, 1000, 695⟩ := by
  have h := parse_region_clips_far_edge (("0").data) (("0").data) (("1005").data)
    (("700").data) 0 0 1005 700 1000 695 (by decide)
    (by decide) (by decide) (by decide) (by decide) (by decide) (by decide) (by decide)
    (by decide) (by decide) (by decide) (by decide) (by decide) (by decide)
    (Or.inl (by decide))
  simpa using h

/-- C10: a plain `"x,y,w,h"` region with a negative `x` or `y` offset,
positive `w` and `h`, and the far edge inside the source passes the
post-check (which only rejects `width ≤ 0`, `height ≤ 0`,
`col_off > source_width` or `row_off > source_height`) and the negative
offset is forwarded unchanged in the returned window. -/
theorem parse_region_negative_offset
    (sx sy sw sh : Str) (x y w h : ℚ) (W H : ℕ)
    (hpx : pyParseFloat sx = some x) (hpy : pyParseFloat sy = some y)
    (hpw : pyParseFloat sw = some w) (hph : pyParseFloat sh = some h)
    (hcx : ',' ∉ sx) (hcy : ',' ∉ sy) (hcw : ',' ∉ sw) (hch : ',' ∉ sh)
    (hneg : x < 0 ∨ y < 0) (hw : 0 < w) (hh : 0 < h)
    (hxw : x + w ≤ (W : ℚ)) (hyh : y + h ≤ (H : ℚ)) (hxW : x ≤ (W : ℚ))
    (hyH : y ≤ (H : ℚ)) :
    parse_region (sx ++ ',' :: (sy ++ ',' :: (sw ++ ',' :: sh))) W H =
      Except.ok ⟨x, y, w, h⟩ := by
  have hmem : (',' : Char) ∈ sx ++ ',' :: (sy ++ ',' :: (sw ++ ',' :: sh)) :=
    List.mem_append.mpr (Or.inr (List.mem_cons_self _ _))
  have hfull : sx ++ ',' :: (sy ++ ',' :: (sw ++ ',' :: sh)) ≠ ("full").data := by
    intro he
    rw [he] at hmem
    exact absurd hmem (by decide)
  have hsq : sx ++ ',' :: (sy ++ ',' :: (sw ++ ',' :: sh)) ≠ ("square").data := by
    intro he
    rw [he] at hmem
    exact absurd hmem (by decide)
  have hpct := not_startsWith_pct_of_parse sx x (',' :: (sy ++ ',' :: (sw ++ ',' :: sh))) hpx
  have hsplit : pySplit ',' (sx ++ ',' :: (sy ++ ',' :: (sw ++ ',' :: sh))) =
      [sx, sy, sw, sh] := by
    rw [pySplit_cons_append _ _ hcx, pySplit_cons_append _ _ hcy,
        pySplit_cons_append _ _ hcw, pySplit_eq_self _ hch]
  have hmapM : mapMOpt pyParseFloat [sx, sy, sw, sh] = some [x, y, w, h] := by
    simp [mapMOpt, hpx, hpy, hpw, hph]
  have hclipw : ¬ (w + x > (W : ℚ)) := by
    push_neg
    linarith
  have hcliph : ¬ (h + y > (H : ℚ)) := by
    push_neg
    linarith
  have hpost : ¬ (w ≤ 0 ∨ h ≤ 0 ∨ x > (W : ℚ) ∨ y > (H : ℚ)) := by
    push_neg
    exact ⟨hw, hh, hxW, hyH⟩
  unfold parse_region regionPostCheck
  rw [if_neg hfull, if_neg hsq, hpct]
  simp only [Bool.false_eq_true, if_false, hsplit, hmapM, List.length_cons,
    List.length_nil, Nat.reduceAdd, if_true, if_neg hclipw, if_neg hcliph]
  simp [hpost]

/-- C10 witness: region `"-10,0,50,50"` on a 50 × 50 source keeps the
negative column offset. -/
theorem parse_region_negative_offset_witness :
    parse_region (("-10").data ++ ',' :: (("0").data ++ ',' :: (("50").data ++ ',' ::
      ("50").data))) 50 50 = Except.ok ⟨-10, 0, 50, 50⟩ :=
  parse_region_negative_offset _ _ _ _ (-10) 0 50 50 50 50 (by decide) (by decide)
    (by decide) (by decide) (by decide) (by decide) (by decide) (by decide)
    (Or.inl (by decide)) (by decide) (by decide) (by decide) (by decide) (by decide)
    (by decide)

/-- C7: `rotate` with 90 degrees and `expand` on a 1000 × 695 canvas swaps
the axes (output 695 × 1000); 180 degrees keeps the input dimensions
(1000 × 695). -/
theorem rotate_expand_right_angle_dims :
    rotateDims 1000 695 90 true false = some (695, 1000) ∧
    rotateDims 1000 695 180 true false = some (1000, 695) := by decide

/-- C9: `image_to_grayscale` is idempotent: whenever it succeeds, applying
it again to the result returns that result unchanged (the second
application takes the 1-band fast path). -/
theorem image_to_grayscale_idempotent (c g : Canvas)
    (h : image_to_grayscale c = Except.ok g) :
    image_to_grayscale g = Except.ok g := by
  by_cases h1 : c.count = 1
  · rw [image_to_grayscale, if_pos h1] at h
    injection h with h'
    subst h'
    rw [image_to_grayscale, if_pos h1]
  · by_cases h3 : c.count = 3
    · rw [image_to_grayscale, if_neg h1, if_pos h3] at h
      injection h with h'
      subst h'
      rfl
    · rw [image_to_grayscale, if_neg h1, if_neg h3] at h
      exact absurd h (by simp)

/-- C9 witness: a 3-band 1 × 1 canvas whose grayscale value is 18. -/
theorem image_to_grayscale_idempotent_witness :
    image_to_grayscale ⟨[[[18]]], [[false]]⟩ = Except.ok ⟨[[[18]]], [[false]]⟩ :=
  image_to_grayscale_idempotent ⟨[[[10]], [[20]], [[30]]], [[false]]⟩
    ⟨[[[18]]], [[false]]⟩ (by decide)

/-- C3 fails as stated: on a 1-band canvas whose only pixel is masked, the
grayscale image keeps the masked pixel but the bitonal image's mask is
all-valid — the thresholded array is wrapped into a new `ImageData` without
the mask, so the mask is not preserved. -/
theorem image_to_bitonal_mask_cex :
    (image_to_bitonal ⟨[[[200]]], [[true]]⟩).map Canvas.mask ≠
      (image_to_grayscale ⟨[[[200]]], [[true]]⟩).map Canvas.mask := by decide

/-- C3 (amended): whenever grayscale conversion succeeds, `image_to_bitonal`
succeeds with every pixel thresholded (`> 127 → 255`, else `0`), but its
mask is reset to all-valid instead of carrying over the grayscale mask. -/
theorem image_to_bitonal_thresholds_resets_mask (c g b : Canvas)
    (hg : image_to_grayscale c = Except.ok g)
    (hb : image_to_bitonal c = Except.ok b) :
    b.data = g.data.map (fun band => band.map (fun row =>
      row.map (fun v => if v > 127 then 255 else 0))) ∧
    b.mask = g.mask.map (fun row => row.map (fun _ => false)) := by
  unfold image_to_bitonal at hb
  rw [hg] at hb
  injection hb with hb'
  subst hb'
  exact ⟨rfl, rfl⟩

/-- C3 (amended) witness: the masked 1-band canvas above. -/
theorem image_to_bitonal_thresholds_resets_mask_witness :
    (Canvas.mk [[[255]]] [[false]]).data =
      (Canvas.mk [[[200]]] [[true]]).data.map (fun band => band.map (fun row =>
        row.map (fun v => if v > 127 then 255 else 0))) ∧
    (Canvas.mk [[[255]]] [[false]]).mask =
      (Canvas.mk [[[200]]] [[true]]).mask.map (fun row => row.map (fun _ => false)) :=
  image_to_bitonal_thresholds_resets_mask ⟨[[[200]]], [[true]]⟩ ⟨[[[200]]], [[true]]⟩
    ⟨[[[255]]], [[false]]⟩ (by decide) (by decide)

theorem qscale_le (c a b : ℚ) (hb : 0 < b) (hab : a ≤ b) (hc : 0 ≤ c) :
    c * a / b ≤ c := by
  rw [div_le_iff hb]
  exact mul_le_mul_of_nonneg_left hab hc

theorem pyint_cast_le (q c : ℚ) (hq : 0 ≤ q) (hqc : q ≤ c) :
    ((pyint q : ℤ) : ℚ) ≤ c :=
  le_trans (pyint_le q hq) hqc

/-- C8: the size-limit clamp `_get_sizes` never increases either dimension,
whatever combination of `max_width`/`max_height`/`max_area` is configured. -/
theorem get_sizes_never_upscales (w h : ℚ) (mw mh ma : Option ℕ)
    (hw : 0 < w) (hh : 0 < h) :
    (_get_sizes w h mw mh ma).1 ≤ w ∧ (_get_sizes w h mw mh ma).2 ≤ h := by
  unfold _get_sizes
  by_cases h1 : truthy ma = true ∧ ((optVal ma : ℚ) < w * h)
  · rw [if_pos h1]
    obtain ⟨-, hlt⟩ := h1
    have hwh : (0 : ℚ) < w * h := mul_pos hw hh
    have hr1 : (optVal ma : ℚ) / (w * h) ≤ 1 := by
      rw [div_le_one hwh]
      exact le_of_lt hlt
    have hr0 : (0 : ℚ) ≤ (optVal ma : ℚ) / (w * h) := by positivity
    constructor
    · exact pyint_cast_le _ _ (by positivity)
        (by calc w * ((optVal ma : ℚ) / (w * h)) ≤ w * 1 :=
                  mul_le_mul_of_nonneg_left hr1 (le_of_lt hw)
              _ = w := mul_one w)
    · exact pyint_cast_le _ _ (by positivity)
        (by calc h * ((optVal ma : ℚ) / (w * h)) ≤ h * 1 :=
                  mul_le_mul_of_nonneg_left hr1 (le_of_lt hh)
              _ = h := mul_one h)
  · rw [if_neg h1]
    by_cases h2 : truthy mw = true
    · rw [if_pos h2]
      dsimp only
      by_cases h3 : w > ((optVal mw : ℕ) : ℚ)
      · rw [if_pos h3]
        dsimp only
        have hMWw : ((optVal mw : ℕ) : ℚ) ≤ w := le_of_lt h3
        have hscale : h * ((optVal mw : ℕ) : ℚ) / w ≤ h :=
          qscale_le h _ w hw hMWw (le_of_lt hh)
        by_cases h4 : ((pyint (h * ((optVal mw : ℕ) : ℚ) / w) : ℤ) : ℚ) >
            ((if truthy mh = true then optVal mh else optVal mw : ℕ) : ℚ)
        · rw [if_pos h4]
          have hMHh : ((if truthy mh = true then optVal mh else optVal mw : ℕ) : ℚ) ≤ h :=
            le_trans (le_of_lt h4) (pyint_cast_le _ _ (by positivity) hscale)
          exact ⟨pyint_cast_le _ _ (by positivity) (qscale_le w _ h hh hMHh (le_of_lt hw)),
                 hMHh⟩
        · rw [if_neg h4]
          exact ⟨hMWw, pyint_cast_le _ _ (by positivity) hscale⟩
      · rw [if_neg h3]
        dsimp only
        by_cases h4 : h > ((if truthy mh = true then optVal mh else optVal mw : ℕ) : ℚ)
        · rw [if_pos h4]
          have hMHh : ((if truthy mh = true then optVal mh else optVal mw : ℕ) : ℚ) ≤ h :=
            le_of_lt h4
          exact ⟨pyint_cast_le _ _ (by positivity) (qscale_le w _ h hh hMHh (le_of_lt hw)),
                 hMHh⟩
        · rw [if_neg h4]
          exact ⟨le_refl w, le_refl h⟩
    · rw [if_neg h2]
      exact ⟨le_refl w, le_refl h⟩

/-- C8 witness: 10 × 8 with `max_area = 40` shrinks to at most 10 × 8. -/
theorem get_sizes_never_upscales_witness :
    (0 : ℚ) < 10 ∧ (0 : ℚ) < 8 ∧
    ((_get_sizes 10 8 (some 12) (some 6) (some 40)).1 ≤ 10 ∧
     (_get_sizes 10 8 (some 12) (some 6) (some 40)).2 ≤ 8) :=
  ⟨by decide, by decide,
   get_sizes_never_upscales 10 8 (some 12) (some 6) (some 40) (by decide) (by decide)⟩

/-- C1: evaluation at the failing input.  For the size token `^!1500,800`
(window 1000 × 695, server `max_width` 2000) the handler raises an uncaught
`ValueError` instead of returning the fit-within dimensions: the code strips
the pattern `"!^"`, which never matches the `"^!"` prefix, so
`int("^!1500")` fails.  The repository's own test, which requests
`^!1500,800` and expects HTTP 200 with a 1500 × 1042 image, contradicts
this behaviour. -/
theorem parse_size_fit_within_upscale_bug :
    parse_size ("^!1500,800".data) ⟨0, 0, 1000, 695⟩ ⟨some 2000, none, none⟩ =
      Except.error PyErr.uncaught := by decide

/-- C2 fails as stated: the unmatched size strings `"a,b"`, `","` and
`"pct:a"` raise an uncaught `ValueError` (from `int`/`float`), not the
`InvalidSize` `HTTPException(400)`. -/
theorem parse_size_unmatched_uncaught_cex :
    parse_size ("a,b".data) ⟨0, 0, 1000, 695⟩ ⟨none, none, none⟩ =
      Except.error PyErr.uncaught ∧
    parse_size (",".data) ⟨0, 0, 1000, 695⟩ ⟨none, none, none⟩ =
      Except.error PyErr.uncaught ∧
    parse_size ("pct:a".data) ⟨0, 0, 1000, 695⟩ ⟨none, none, none⟩ =
      Except.error PyErr.uncaught := by decide

/-- C2 (amended): a size string that is not `max` or `^max`, does not start
with `pct:` or `^pct:`, and contains no comma fails with `InvalidSize`
(HTTP 400); non-matching strings with a comma, or with a `pct:`/`^pct:`
prefix and a non-numeric remainder, raise an uncaught `ValueError`
instead. -/
theorem parse_size_unmatched_no_comma_http400 (size : Str) (window : Window)
    (limits : SizeLimits)
    (h1 : size ≠ ("max").data) (h2 : size ≠ ("^max").data)
    (h3 : pyStartsWith (("pct:").data) size = false)
    (h4 : pyStartsWith (("^pct:").data) size = false)
    (h5 : ',' ∉ size) :
    parse_size size window limits = Except.error (PyErr.http 400) := by
  unfold parse_size
  dsimp only
  rw [if_neg h1, if_neg h2, h3]
  simp only [Bool.false_eq_true, if_false]
  rw [h4]
  simp only [Bool.false_eq_true, if_false]
  rw [if_neg h5]

/-- C2 (amended) witness: the size string `"abc"`. -/
theorem parse_size_unmatched_no_comma_http400_witness :
    parse_size ("abc".data) ⟨0, 0, 1000, 695⟩ ⟨none, none, none⟩ =
      Except.error (PyErr.http 400) :=
  parse_size_unmatched_no_comma_http400 ("abc".data) ⟨0, 0, 1000, 695⟩
    ⟨none, none, none⟩ (by decide) (by decide) (by decide) (by decide) (by decide)

/-- C4 fails as stated: `"9!0"` does not start with `!`, and parsing the
full string as a number fails, so by the claim the request should be
rejected — but the code strips every `!` before parsing, so the rotation is
accepted as 90 degrees, not mirrored. -/
theorem parse_rotation_bang_anywhere_cex :
    parse_rotation ("9!0".data) = Except.ok ⟨90, false⟩ ∧
    pyParseFloat ("9!0".data) = none := by decide

/-- C4 (amended): the degrees are parsed from the rotation string with
every `!` removed (not only a leading one); `mirrored` is true exactly when
the string starts with `!`; the parse succeeds exactly when the stripped
string parses as a number within `[0, 360]`, and fails with
`InvalidRotation` (HTTP 400) otherwise. -/
theorem parse_rotation_ok_iff (s : Str) (r : RotationSpec) :
    parse_rotation s = Except.ok r ↔
      (pyParseFloat (pyReplace (("!").data) [] s) = some r.degrees ∧
       0 ≤ r.degrees ∧ r.degrees ≤ 360 ∧ r.mirrored = pyStartsWith (("!").data) s) := by
  unfold parse_rotation
  cases hp : pyParseFloat (pyReplace (("!").data) [] s) with
  | none => simp
  | some d =>
    dsimp only
    by_cases hd : d < 0 ∨ d > 360
    · rw [if_pos hd]
      constructor
      · intro he
        exact Except.noConfusion he
      · rintro ⟨hdeg, h0, h360, -⟩
        injection hdeg with hdeg'
        rcases hd with hlt | hgt
        · rw [hdeg'] at hlt
          linarith
        · rw [hdeg'] at hgt
          linarith
    · rw [if_neg hd]
      push_neg at hd
      obtain ⟨h0, h360⟩ := hd
      constructor
      · intro he
        injection he with he'
        subst he'
        exact ⟨rfl, h0, h360, rfl⟩
      · cases r with
        | mk deg mir =>
          rintro ⟨hdeg, -, -, hmir⟩
          injection hdeg with hdeg'
          dsimp at hdeg' hmir
          rw [hdeg', hmir]

/-- C4 (amended) witness: `"!90"` parses as 90 degrees, mirrored. -/
theorem parse_rotation_ok_iff_witness :
    parse_rotation ("!90".data) = Except.ok ⟨90, true⟩ :=
  (parse_rotation_ok_iff ("!90".data) ⟨90, true⟩).mpr (by decide)

/-- The embedded parsers reproduce the repository's test vectors
(`tests/test_iiif.py` on the 1000 × 695 fixture with server
`max_width = 2000`) wherever the tests and the code agree. -/
theorem parser_matches_test_vectors :
    parse_region ("full".data) 1000 695 = Except.ok ⟨0, 0, 1000, 695⟩ ∧
    parse_region ("square".data) 1000 695 = Except.ok ⟨152, 0, 695, 695⟩ ∧
    parse_region ("pct:10,10,10,10".data) 1000 695 = Except.ok ⟨100, 70, 100, 70⟩ ∧
    parse_region ("pct:105,100,100,100".data) 1000 695 = Except.error (PyErr.http 400) ∧
    parse_rotation ("!900".data) = Except.error (PyErr.http 400) ∧
    parse_rotation ("90".data) = Except.ok ⟨90, false⟩ ∧
    parse_size ("max".data) ⟨0, 0, 1000, 695⟩ ⟨some 2000, none, none⟩ =
      Except.ok (1000, 695) ∧
    parse_size ("^max".data) ⟨0, 0, 1000, 695⟩ ⟨some 2000, none, none⟩ =
      Except.ok (2000, 1390) ∧
    parse_size ("pct:50".data) ⟨0, 0, 1000, 695⟩ ⟨some 2000, none, none⟩ =
      Except.ok (500, 348) ∧
    parse_size ("pct:150".data) ⟨0, 0, 1000, 695⟩ ⟨some 2000, none, none⟩ =
      Except.error (PyErr.http 400) ∧
    parse_size ("^pct:150".data) ⟨0, 0, 1000, 695⟩ ⟨some 2000, none, none⟩ =
      Except.ok (1500, 1042) ∧
    parse_size ("^pct:300".data) ⟨0, 0, 1000, 695⟩ ⟨some 2000, none, none⟩ =
      Except.ok (2000, 1390) ∧
    parse_size ("500,".data) ⟨0, 0, 1000, 695⟩ ⟨some 2000, none, none⟩ =
      Except.ok (500, 348) ∧
    parse_size ("1500,".data) ⟨0, 0, 1000, 695⟩ ⟨some 2000, none, none⟩ =
      Except.error (PyErr.http 400) ∧
    parse_size (",348".data) ⟨0, 0, 1000, 695⟩ ⟨some 2000, none, none⟩ =
      Except.ok (501, 348) ∧
    parse_size ("100,50".data) ⟨0, 0, 1000, 695⟩ ⟨some 2000, none, none⟩ =
      Except.ok (100, 50) ∧
    parse_size ("1500,1000".data) ⟨0, 0, 1000, 695⟩ ⟨some 2000, none, none⟩ =
      Except.error (PyErr.http 400) ∧
    parse_size ("^1500,1000".data) ⟨0, 0, 1000, 695⟩ ⟨some 2000, none, none⟩ =
      Except.ok (1500, 1000) ∧
    parse_size ("!1500,800".data) ⟨0, 0, 1000, 695⟩ ⟨some 2000, none, none⟩ =
      Except.error (PyErr.http 400) ∧
    parse_size ("0,0".data) ⟨0, 0, 1000, 695⟩ ⟨some 2000, none, none⟩ =
      Except.error (PyErr.http 400) := by decide
